import Mathlib

/-!
Shallow embedding of the core allocator routines of the `allocators-rs`
repository (crates `elfmalloc` and `mmap-alloc`) and proofs about them.

The embedding covers:

* the `large_alloc` module of `elfmalloc/src/general.rs` (direct page
  mappings with a length-header page);
* the dispatch logic of `ElfMalloc::alloc`, `ElfMalloc::free` and
  `ElfMalloc::realloc` (same file), modelled as functions from an abstract
  heap state to a trace of allocator effects plus a result pointer;
* the tiered size-class selection (`TieredSizeClasses::get_raw`,
  `Multiples::get_raw`, `PowersOfTwo::get_raw` and their constructors);
* the global entry points `global::alloc`, `global::free`,
  `global::realloc` (thread-local `INIT` / `PTR` variant);
* the `mmap-alloc` crate: `next_multiple`, `MapAlloc::alloc_helper` and
  `MapAlloc::alloc_excess`.

Pointers are modelled as natural numbers, with 0 playing the role of the
null pointer.  Code that is part of the repository but whose file is not
available (the `slag` and `utils` modules of `elfmalloc`) is modelled from
the specification; every such definition carries a doc comment starting
with "Modelled from the spec:".
-/

namespace AllocatorsRs

/-! ### Arithmetic helpers used by the size-class code -/

/-- Constant `MULTIPLE = 16` from `general.rs`. -/
def MULTIPLE : Nat := 16

/-- Embedding of `fn round_up(n: usize) -> usize { (n + (MULTIPLE - 1)) & !(MULTIPLE - 1) }`
from `general.rs`.  Masking with `!(MULTIPLE - 1)` clears the low four bits,
i.e. subtracts the remainder modulo 16. -/
def round_up (n : Nat) : Nat :=
  (n + (MULTIPLE - 1)) - ((n + (MULTIPLE - 1)) % MULTIPLE)

/-- Fuel-indexed doubling loop: smallest power-of-two multiple of `acc`
that is at least `n` (with enough fuel).  Used to embed Rust's
`usize::next_power_of_two`. -/
def npt_loop : Nat → Nat → Nat → Nat
  | 0, _, acc => acc
  | fuel + 1, n, acc => if n ≤ acc then acc else npt_loop fuel n (2 * acc)

/-- Embedding of Rust's `usize::next_power_of_two` (on a 64-bit target):
the smallest power of two greater than or equal to `n` (and 1 for `n ≤ 1`). -/
def next_power_of_two (n : Nat) : Nat := npt_loop 64 n 1

/-- Fuel-indexed helper for `trailing_zeros`. -/
def tz_loop : Nat → Nat → Nat
  | 0, _ => 0
  | fuel + 1, n => if n % 2 = 1 then 0 else tz_loop fuel (n / 2) + 1

/-- Embedding of Rust's `usize::trailing_zeros` (on a 64-bit target):
the number of trailing zero bits, with `trailing_zeros 0 = 64`. -/
def trailing_zeros (n : Nat) : Nat :=
  if n = 0 then 64 else tz_loop 64 n

/-! ### The `large_alloc` module of `general.rs` -/

namespace large_alloc

/-- Constant `PAGE_SIZE = 4096` from the `large_alloc` module. -/
def PAGE_SIZE : Nat := 4096

/-- State of the low-level virtual-memory layer as seen by `large_alloc`:
the usize value readable at each byte address, and the list of currently
mapped `(base, length)` regions. -/
structure LAState where
  words : Nat → Nat
  mapped : List (Nat × Nat)

/-- Embedding of `large_alloc::alloc`:
`map(size + PAGE_SIZE); *(mem as *mut usize) = size + PAGE_SIZE; mem.offset(PAGE_SIZE)`.
The address `base` returned by `map` is an input (the VM layer's choice);
`map` itself is code of the missing `utils` module.  Modelled from the spec:
`alloc(n)`: map `n + page_size` bytes, write the length in the first word,
return `base + page_size`. -/
def alloc (st : LAState) (base : Nat) (size : Nat) : LAState × Nat :=
  let st1 : LAState :=
    { words := fun a => if a = base then size + PAGE_SIZE else st.words a
      mapped := (base, size + PAGE_SIZE) :: st.mapped }
  (st1, base + PAGE_SIZE)

/-- Embedding of `large_alloc::free`:
`base_ptr = item.offset(-PAGE_SIZE); size = *(base_ptr as *mut usize); unmap(base_ptr, size)`.
Returns the new state together with the `(address, length)` pair passed to
`unmap`. -/
def free (st : LAState) (item : Nat) : LAState × (Nat × Nat) :=
  let base_ptr := item - PAGE_SIZE
  let size := st.words base_ptr
  ({ st with mapped := st.mapped.erase (base_ptr, size) }, (base_ptr, size))

/-- Embedding of `large_alloc::get_commitment`:
read the length word at `item - PAGE_SIZE` and return it with the base. -/
def get_commitment (st : LAState) (item : Nat) : Nat × Nat :=
  let base_ptr := item - PAGE_SIZE
  (st.words base_ptr, base_ptr)

end large_alloc

/-! ### The `ElfMalloc` dispatch logic (`alloc` / `free` / `realloc`) -/

/-- One observable effect of `ElfMalloc::alloc`, `free` or `realloc`:

* `scAlloc bytes`  — `self.allocs.get_mut(bytes).alloc()` (size-class path);
* `laAlloc bytes`  — `large_alloc::alloc(bytes)`;
* `scFree objSize p` — `self.allocs.get_mut(slag.get_metadata().object_size).free(p)`;
* `laFree p`       — `large_alloc::free(p)`;
* `copyN src dst len` — `ptr::copy_nonoverlapping(src, dst, len)`. -/
inductive Step where
  | scAlloc (bytes : Nat)
  | laAlloc (bytes : Nat)
  | scFree (objSize p : Nat)
  | laFree (p : Nat)
  | copyN (src dst len : Nat)
  deriving DecidableEq, Repr

/-- Abstract state of one `ElfMalloc` handle, as consulted by the dispatch
logic of `alloc` / `free` / `realloc`:

* `max_size` — the field `ElfMalloc::max_size`;
* `creekBase`, `creekLen` — extent of the creek backing `self.pages`;
* `slabSize` — `self.pages.backing_memory().page_size()` (the slab size);
* `objSize b` — `object_size` of the metadata of the slag whose slab base
  address is `b` (every in-circulation slab is tied to one size class);
* `memWord a` — the usize value readable at address `a` (used by
  `large_alloc::get_commitment` for the header word);
* `scRet bytes` — the pointer that the size-class machinery returns for a
  request of `bytes` bytes (abstracting the per-thread cache state);
* `laRet bytes` — the pointer that `large_alloc::alloc(bytes)` returns. -/
structure ElfState where
  max_size : Nat
  creekBase : Nat
  creekLen : Nat
  slabSize : Nat
  objSize : Nat → Nat
  memWord : Nat → Nat
  scRet : Nat → Nat
  laRet : Nat → Nat

/-- Modelled from the spec: `Creek::contains` of the missing `slag` module —
"provides `contains(ptr) -> bool` in O(1) by base+length comparison". -/
def ElfState.contains (E : ElfState) (p : Nat) : Bool :=
  E.creekBase ≤ p && p < E.creekBase + E.creekLen

/-- Modelled from the spec: `Slag::find` of the missing `slag` module —
"given any user pointer `p`, the owning Slag is `p & ~(slab_size − 1)`",
i.e. `p` with its offset within the slab cleared. -/
def Slag.find (item slabSize : Nat) : Nat :=
  item - item % slabSize

/-- Embedding of `ElfMalloc::alloc`:
`if bytes < self.max_size { self.allocs.get_mut(bytes).alloc() } else { large_alloc::alloc(bytes) }`.
Returns the trace of effects together with the resulting pointer. -/
def ElfMalloc.alloc (E : ElfState) (bytes : Nat) : List Step × Nat :=
  if bytes < E.max_size then ([.scAlloc bytes], E.scRet bytes)
  else ([.laAlloc bytes], E.laRet bytes)

/-- Embedding of `ElfMalloc::free`: if the pointer is in the creek, free it
into the size class of its owning slag, else `large_alloc::free`. -/
def ElfMalloc.free (E : ElfState) (item : Nat) : List Step :=
  if E.contains item then
    [.scFree (E.objSize (Slag.find item E.slabSize)) item]
  else
    [.laFree item]

/-- Embedding of `ElfMalloc::realloc` (`general.rs`, lines 766–794):

```text
if item.is_null() { return self.alloc(new_size); }
if new_size == 0 { self.free(item); return ptr::null_mut(); }
if self.pages.backing_memory().contains(item) {
    let meta = Slag::find(item, page_size).get_metadata();
    if meta.object_size >= new_size { return item; }
    let new_memory = self.alloc(new_size);
    ptr::copy_nonoverlapping(item, new_memory, meta.object_size);
    self.free(item);
    new_memory
} else {
    let (size, _) = large_alloc::get_commitment(item);
    if size >= new_size { return item; }
    let new_memory = self.alloc(new_size);
    ptr::copy_nonoverlapping(item, new_memory, size);
    new_memory
}
``` -/
def ElfMalloc.realloc (E : ElfState) (item new_size : Nat) : List Step × Nat :=
  if item = 0 then ElfMalloc.alloc E new_size
  else if new_size = 0 then (ElfMalloc.free E item, 0)
  else if E.contains item then
    let object_size := E.objSize (Slag.find item E.slabSize)
    if new_size ≤ object_size then ([], item)
    else
      let a := ElfMalloc.alloc E new_size
      (a.1 ++ [.copyN item a.2 object_size] ++ ElfMalloc.free E item, a.2)
  else
    let size := E.memWord (item - large_alloc.PAGE_SIZE)
    if new_size ≤ size then ([], item)
    else
      let a := ElfMalloc.alloc E new_size
      (a.1 ++ [.copyN item a.2 size], a.2)

/-! ### The tiered size classes -/

/-- Parameters of `Multiples<T>` relevant to index selection: the fields
`starting_size` and `max_size`, plus the length of the `classes` array. -/
structure Multiples where
  starting_size : Nat
  max_size : Nat
  n_classes : Nat
  deriving DecidableEq, Repr

/-- Embedding of `Multiples::init_conserve(start, n_classes, f)` (the class
array itself is abstracted to its length):
`starting_size = round_up(start)`, `max_size = n_classes * MULTIPLE + starting_size - MULTIPLE`. -/
def Multiples.init (start n_classes : Nat) : Multiples :=
  { starting_size := round_up start
    max_size := n_classes * MULTIPLE + round_up start - MULTIPLE
    n_classes := n_classes }

/-- Embedding of `Multiples::get_raw(n)` as the array index it selects:
`(round_up(n) - self.starting_size) / MULTIPLE`. -/
def Multiples.get_index (m : Multiples) (n : Nat) : Nat :=
  (round_up n - m.starting_size) / MULTIPLE

/-- Parameters of `PowersOfTwo<T>` relevant to index selection. -/
structure PowersOfTwo where
  starting_size : Nat
  max_size : Nat
  n_classes : Nat
  deriving DecidableEq, Repr

/-- Embedding of `PowersOfTwo::init_conserve(start, n_classes, f)`:
`starting_size = start.next_power_of_two()`; the init loop doubles
`cur_size` once per class and finally sets `max_size = cur_size / 2`,
so `max_size = starting_size * 2 ^ n_classes / 2`. -/
def PowersOfTwo.init (start n_classes : Nat) : PowersOfTwo :=
  { starting_size := next_power_of_two start
    max_size := next_power_of_two start * 2 ^ n_classes / 2
    n_classes := n_classes }

/-- Embedding of `PowersOfTwo::get_raw(k)` as the array index it selects:
`(k.next_power_of_two().trailing_zeros() - self.starting_size.trailing_zeros())`. -/
def PowersOfTwo.get_index (p : PowersOfTwo) (k : Nat) : Nat :=
  trailing_zeros (next_power_of_two k) - trailing_zeros p.starting_size

/-- Parameters of `TieredSizeClasses<T>`: the word class plus the small
(multiples-of-16) and medium (powers-of-two) tiers. -/
structure TieredSizeClasses where
  small_objs : Multiples
  medium_objs : PowersOfTwo
  deriving DecidableEq, Repr

/-- Embedding of `TieredSizeClasses::init_conserve(start, n_classes, f)`:
`n_small_classes = n_classes / 2`, `n_medium_classes = n_classes - n_small_classes`,
the small tier starts at `start` and the medium tier at
`small_classes.max_key() + 1`. -/
def TieredSizeClasses.init (start n_classes : Nat) : TieredSizeClasses :=
  let n_small_classes := n_classes / 2
  let n_medium_classes := n_classes - n_small_classes
  let small_classes := Multiples.init start n_small_classes
  let medium_classes := PowersOfTwo.init (small_classes.max_size + 1) n_medium_classes
  { small_objs := small_classes, medium_objs := medium_classes }

/-- Embedding of `TieredSizeClasses::max_key`: the medium tier's `max_size`. -/
def TieredSizeClasses.max_key (t : TieredSizeClasses) : Nat :=
  t.medium_objs.max_size

/-- Which size class `TieredSizeClasses::get_raw` selects: the dedicated
word class, or an index into the small or medium tier. -/
inductive ClassSel where
  | word
  | small (i : Nat)
  | medium (i : Nat)
  deriving DecidableEq, Repr

/-- Embedding of `TieredSizeClasses::get_raw(n)`:
`if n <= 8 { word_objs } else if n <= self.small_objs.max_key() { small_objs.get_raw(n) } else { medium_objs.get_raw(n) }`. -/
def TieredSizeClasses.select (t : TieredSizeClasses) (n : Nat) : ClassSel :=
  if n ≤ 8 then .word
  else if n ≤ t.small_objs.max_size then .small (t.small_objs.get_index n)
  else .medium (t.medium_objs.get_index n)

/-- The size-class structure built by `ElfMalloc::new`, which calls
`new_internal(128 << 10, 0.6, pa, 8, 25)`: `start_from = 8`, `n_classes = 25`. -/
def defaultTiers : TieredSizeClasses := TieredSizeClasses.init 8 25

/-! ### The `global` module entry points

We model the nightly / `target_thread_local` variant, the one the spec
describes: a thread-local boolean `INIT` and a thread-local cached raw
pointer `PTR`.  `PTR` is abstracted to the boolean "is a handle pointer
installed"; dispatches through a live handle are recorded as abstract
trace steps, while the `large_alloc` calls are executed on the `LAState`. -/

/-- Thread-local state of the `global` module: the recursion guard `INIT`
and whether the cached handle pointer `PTR` is non-null. -/
structure GlobalTLS where
  initFlag : Bool
  ptrCached : Bool
  deriving DecidableEq, Repr

/-- One observable step of a `global` entry point:

* `handleAlloc n` / `handleFree p` — dispatch through the cached `PTR` handle;
* `largeAllocG n` — `large_alloc::alloc(n)` (recursive-init bypass);
* `initAlloc n` — `init_begin(); alloc_inner(n); init_end()` (lazy setup path);
* `innerScFree p` — `LOCAL_ELF_HEAP`'s inner free, size-class path;
* `innerLargeFree p` — `LOCAL_ELF_HEAP`'s inner free, `large_alloc::free` path. -/
inductive GStep where
  | handleAlloc (n : Nat)
  | handleFree (p : Nat)
  | largeAllocG (n : Nat)
  | initAlloc (n : Nat)
  | innerScFree (p : Nat)
  | innerLargeFree (p : Nat)
  deriving DecidableEq, Repr

/-- Embedding of `global::alloc` (`general.rs`, lines 341–357):

```text
if likely(!PTR.is_null()) { return (*PTR).alloc(size); }
if is_initializing() { return super::large_alloc::alloc(size); }
init_begin(); let res = alloc_inner(size); init_end(); res
```

The argument `freshBase` is the base address the VM layer hands to
`large_alloc::alloc` if that path is taken.  Returns the new thread-local
state, the new VM state, the resulting pointer and the trace. -/
def global.alloc (g : GlobalTLS) (E : ElfState) (la : large_alloc.LAState)
    (freshBase size : Nat) :
    GlobalTLS × large_alloc.LAState × Nat × List GStep :=
  if g.ptrCached then
    (g, la, (ElfMalloc.alloc E size).2, [.handleAlloc size])
  else if g.initFlag then
    let r := large_alloc.alloc la freshBase size
    (g, r.1, r.2, [.largeAllocG size])
  else
    ({ initFlag := false, ptrCached := true }, la, (ElfMalloc.alloc E size).2,
     [.initAlloc size])

/-- Embedding of `global::free` (`general.rs`, lines 388–410), in the case
where the thread is alive (so `LOCAL_ELF_HEAP.try_with` succeeds):

```text
if likely(!PTR.is_null()) { return (*PTR).free(item); }
LOCAL_ELF_HEAP.try_with(|h| (*h.get()).inner.free(item))...
```

The inner free is `ElfMalloc::free`: creek pointers go to their size
class, all others to `large_alloc::free` (executed on the `LAState`). -/
def global.free (g : GlobalTLS) (E : ElfState) (la : large_alloc.LAState)
    (item : Nat) : large_alloc.LAState × List GStep :=
  if g.ptrCached then (la, [.handleFree item])
  else if E.contains item then (la, [.innerScFree item])
  else
    let r := large_alloc.free la item
    (r.1, [.innerLargeFree item])

/-- Embedding of `global::realloc` (`general.rs`, lines 380–386):

```text
assert!(!is_initializing(), "realloc cant be called recursively");
init_begin(); let res = realloc_inner(item, new_size); init_end(); res
```

A failed assertion is a panic, modelled as `Except.error`;
`realloc_inner` dispatches to the inner `ElfMalloc::realloc`. -/
def global.realloc (g : GlobalTLS) (E : ElfState) (item new_size : Nat) :
    Except String (List Step × Nat) :=
  if g.initFlag then .error "realloc cant be called recursively"
  else .ok (ElfMalloc.realloc E item new_size)

/-! ### The `mmap-alloc` crate -/

/-- Embedding of `fn next_multiple(size: usize, unit: usize) -> usize`
(`mmap-alloc/src/lib.rs`, lines 386–392):

```text
if size % unit == 0 { size } else { size + (size - (size % unit)) }
``` -/
def next_multiple (size unit : Nat) : Nat :=
  if size % unit = 0 then size else size + (size - size % unit)

/-- Configuration of a `MapAlloc` consulted by `alloc_helper` and
`alloc_excess` (permissions and huge-page settings do not influence the
control flow modelled here). -/
structure MapAlloc where
  pagesize : Nat
  deriving DecidableEq, Repr

/-- One call into the VM layer made by `MapAlloc::alloc_helper`. -/
inductive VMStep where
  | mmapCall (size : Nat) (ret : Option Nat)
  | munmapCall (addr len : Nat)
  | markUnused (addr len : Nat)
  deriving DecidableEq, Repr

/-- Embedding of `MapAlloc::alloc_helper` (`mmap-alloc/src/lib.rs`, lines
223–247).  The result of each `mmap` call is drawn from the `responses`
list (`none` = out of memory, `some p` = mapped at address `p`); the
recursion consumes one response per call:

```text
let f = |ptr| if ptr.is_null() {
    let unmap_size = size - self.pagesize;
    if unmap_size > 0 { munmap(self.pagesize as *mut u8, unmap_size); }
    mark_unused(ptr::null_mut(), self.pagesize);
    self.alloc_helper(size)
} else { Some(ptr) };
mmap(size, self.perms, self.huge_pagesize).and_then(f)
```

(`size - self.pagesize` is usize subtraction; for the sizes reaching this
code it agrees with truncated subtraction on `Nat`).  An exhausted
response list stands for an environment that provides no further
mappings and is reported as `none`. -/
def MapAlloc.alloc_helper (self : MapAlloc) (size : Nat) :
    List (Option Nat) → Option Nat × List VMStep
  | [] => (none, [])
  | none :: _ => (none, [VMStep.mmapCall size none])
  | some p :: rest =>
    if p = 0 then
      let unmap_size := size - self.pagesize
      let unmapSteps :=
        if 0 < unmap_size then [VMStep.munmapCall self.pagesize unmap_size] else []
      let r := MapAlloc.alloc_helper self size rest
      (r.1, VMStep.mmapCall size (some 0) :: unmapSteps ++ VMStep.markUnused 0 self.pagesize :: r.2)
    else (some p, [VMStep.mmapCall size (some p)])

/-- Errors of the `Alloc` API as produced by `alloc_excess`. -/
inductive AllocErr where
  | invalidInput (msg : String)
  | exhausted
  deriving DecidableEq, Repr

/-- Embedding of `MapAlloc::alloc_excess` (`mmap-alloc/src/lib.rs`, lines
316–328):

```text
if layout.align() > self.pagesize {
    return Err(AllocErr::invalid_input("cannot support alignment greater than a page"));
}
let size = next_multiple(layout.size(), self.pagesize);
match self.alloc_helper(size) {
    Some(ptr) => Ok(Excess(ptr, size)),
    None => Err(AllocErr::Exhausted { request: layout }),
}
``` -/
def MapAlloc.alloc_excess (self : MapAlloc) (responses : List (Option Nat))
    (layoutSize layoutAlign : Nat) : Except AllocErr (Nat × Nat) :=
  if self.pagesize < layoutAlign then
    .error (.invalidInput "cannot support alignment greater than a page")
  else
    let size := next_multiple layoutSize self.pagesize
    match (MapAlloc.alloc_helper self size responses).1 with
    | some ptr => .ok (ptr, size)
    | none => .error .exhausted

/-! ### Predicates on traces and concrete example states -/

/-- Whether a `Step` is a free (size-class or large). -/
def Step.isFree : Step → Bool
  | .scFree _ _ => true
  | .laFree _ => true
  | _ => false

/-- Whether a `VMStep` is a call to `mmap`. -/
def VMStep.isMmap : VMStep → Bool
  | .mmapCall _ _ => true
  | _ => false

/-- Concrete `ElfMalloc` state used for counterexamples and witnesses: the
default `max_size` (2^20), a creek of 2^30 bytes at 2^40 with 2 MiB slabs,
every in-circulation slag of object size 16, the large header word 12288
stored at address 4096 (a previous `large_alloc::alloc(8192)` based at 0 + one
further mapping), and fixed non-null return pointers for the two back ends. -/
def E0 : ElfState :=
  { max_size := 1048576
    creekBase := 2 ^ 40
    creekLen := 2 ^ 30
    slabSize := 2 ^ 21
    objSize := fun _ => 16
    memWord := fun a => if a = 4096 then 12288 else 0
    scRet := fun _ => 2 ^ 40 + 4096
    laRet := fun _ => 2 ^ 41 }

/-- Concrete empty VM state for `large_alloc` examples. -/
def la0 : large_alloc.LAState :=
  { words := fun _ => 0
    mapped := [] }

/-! ## Theorems for the claims -/

/-- C1, counterexample: `realloc(null, 0)` does NOT return null.  The very
first check of `ElfMalloc::realloc` routes every null pointer to
`self.alloc(new_size)` before the `new_size == 0` check is reached, so
`realloc(null, 0)` dispatches to the size-class allocator for size 0 (the
word class) and returns its pointer — here the non-null pointer produced
by the size-class machinery of the concrete state `E0`. -/
theorem C1_counterexample :
    ElfMalloc.realloc E0 0 0 = ([Step.scAlloc 0], 2 ^ 40 + 4096) ∧
    (2 ^ 40 + 4096 : Nat) ≠ 0 := by
  decide

/-- C1 (amended): calling `realloc` with a null pointer behaves exactly as
`alloc` of the requested size for every size, including size zero (which is
served by the size-class allocator and so does not return null); calling
`realloc` with a non-null pointer and size zero frees the pointer and
returns null. -/
theorem C1_realloc_null_and_zero (E : ElfState) (p n : Nat) (hp : p ≠ 0) :
    ElfMalloc.realloc E 0 n = ElfMalloc.alloc E n ∧
    ElfMalloc.realloc E p 0 = (ElfMalloc.free E p, 0) := by
  refine ⟨by simp [ElfMalloc.realloc], ?_⟩
  simp [ElfMalloc.realloc, hp]

/-- C1, witness for `C1_realloc_null_and_zero` at `E0`, `p = 3`, `n = 5`. -/
theorem C1_witness :
    (3 : Nat) ≠ 0 ∧
    (ElfMalloc.realloc E0 0 5 = ElfMalloc.alloc E0 5 ∧
     ElfMalloc.realloc E0 3 0 = (ElfMalloc.free E0 3, 0)) :=
  ⟨by decide, C1_realloc_null_and_zero E0 3 5 (by decide)⟩

/-- C2, failing input: reallocating the large pointer `8192` (outside the
creek of `E0`, header word `12288` at `8192 - 4096`) to the larger size
`2097152` allocates new memory and copies the header-word many bytes, but
the trace contains NO free of the old pointer: the large-pointer branch of
`ElfMalloc::realloc` omits the `self.free(item)` that the in-creek branch
performs, leaking the old mapping. -/
theorem C2_large_realloc_no_free :
    ElfMalloc.realloc E0 8192 2097152 =
      ([Step.laAlloc 2097152, Step.copyN 8192 (2 ^ 41) 12288], 2 ^ 41) ∧
    (ElfMalloc.realloc E0 8192 2097152).1.all (fun s => !s.isFree) = true := by
  decide

/-- C3, counterexample: the default `max_size` is `2^20 = 1048576`, and a
request of exactly `max_size` bytes is routed to `large_alloc::alloc`
(`Step.laAlloc`), not to the size-class allocator: the dispatch in
`ElfMalloc::alloc` tests `bytes < self.max_size` strictly. -/
theorem C3_counterexample :
    defaultTiers.max_key = 1048576 ∧ E0.max_size = 1048576 ∧
    ElfMalloc.alloc E0 1048576 = ([Step.laAlloc 1048576], 2 ^ 41) := by
  decide

/-- C3 (amended): a request of strictly less than `max_size` bytes is
served by the size-class allocator; a request of `max_size` bytes or more
(in particular exactly `max_size`) is routed to LargeAlloc. -/
theorem C3_alloc_routing (E : ElfState) (bytes : Nat) :
    (bytes < E.max_size →
      ElfMalloc.alloc E bytes = ([Step.scAlloc bytes], E.scRet bytes)) ∧
    (E.max_size ≤ bytes →
      ElfMalloc.alloc E bytes = ([Step.laAlloc bytes], E.laRet bytes)) := by
  constructor
  · intro h; simp [ElfMalloc.alloc, h]
  · intro h; simp [ElfMalloc.alloc, Nat.not_lt.mpr h]

/-- C3, witness for `C3_alloc_routing` at `E0` with `bytes = 1048576 = max_size`
(the large route) and, via the first conjunct, `bytes = 100` (the size-class
route). -/
theorem C3_witness :
    ElfMalloc.alloc E0 100 = ([Step.scAlloc 100], E0.scRet 100) ∧
    ElfMalloc.alloc E0 1048576 = ([Step.laAlloc 1048576], E0.laRet 1048576) :=
  ⟨(C3_alloc_routing E0 100).1 (by decide), (C3_alloc_routing E0 1048576).2 (by decide)⟩

/-- C4: `large_alloc::alloc(n)` maps `n + page_size` bytes at the base the
VM layer returns, writes the total mapped length `n + page_size` into the
first word of the mapping, and returns `base + page_size`, which is
page-aligned whenever the base is; `large_alloc::free(p)` reads the length
word at `p - page_size` and unmaps exactly that many bytes starting at
`p - page_size` — in particular, freeing the pointer returned by an alloc
unmaps exactly the `(base, n + page_size)` region that alloc mapped. -/
theorem C4_large_alloc_header (st : large_alloc.LAState) (base n : Nat)
    (hb : base % large_alloc.PAGE_SIZE = 0) :
    (large_alloc.alloc st base n).1.mapped.head? =
      some (base, n + large_alloc.PAGE_SIZE) ∧
    (large_alloc.alloc st base n).1.words base = n + large_alloc.PAGE_SIZE ∧
    (large_alloc.alloc st base n).2 = base + large_alloc.PAGE_SIZE ∧
    (large_alloc.alloc st base n).2 % large_alloc.PAGE_SIZE = 0 ∧
    (∀ st2 q, (large_alloc.free st2 q).2 =
      (q - large_alloc.PAGE_SIZE, st2.words (q - large_alloc.PAGE_SIZE))) ∧
    (large_alloc.free (large_alloc.alloc st base n).1
        (large_alloc.alloc st base n).2).2 = (base, n + large_alloc.PAGE_SIZE) ∧
    (large_alloc.free (large_alloc.alloc st base n).1
        (large_alloc.alloc st base n).2).1.mapped = st.mapped := by
  refine ⟨rfl, by simp [large_alloc.alloc], rfl, ?_, fun st2 q => rfl, ?_, ?_⟩
  · simp [large_alloc.alloc, Nat.add_mod, hb]
  · simp [large_alloc.free, large_alloc.alloc, Nat.add_sub_cancel]
  · simp [large_alloc.free, large_alloc.alloc, Nat.add_sub_cancel]

/-- C4, witness for `C4_large_alloc_header` at `la0`, `base = 8192`, `n = 100`. -/
theorem C4_witness :
    (8192 : Nat) % large_alloc.PAGE_SIZE = 0 ∧
    ((large_alloc.alloc la0 8192 100).1.mapped.head? =
      some (8192, 100 + large_alloc.PAGE_SIZE) ∧
    (large_alloc.alloc la0 8192 100).1.words 8192 = 100 + large_alloc.PAGE_SIZE ∧
    (large_alloc.alloc la0 8192 100).2 = 8192 + large_alloc.PAGE_SIZE ∧
    (large_alloc.alloc la0 8192 100).2 % large_alloc.PAGE_SIZE = 0 ∧
    (∀ st2 q, (large_alloc.free st2 q).2 =
      (q - large_alloc.PAGE_SIZE, st2.words (q - large_alloc.PAGE_SIZE))) ∧
    (large_alloc.free (large_alloc.alloc la0 8192 100).1
        (large_alloc.alloc la0 8192 100).2).2 = (8192, 100 + large_alloc.PAGE_SIZE) ∧
    (large_alloc.free (large_alloc.alloc la0 8192 100).1
        (large_alloc.alloc la0 8192 100).2).1.mapped = la0.mapped) :=
  ⟨by decide, C4_large_alloc_header la0 8192 100 (by decide)⟩

/-- C6: `realloc(p, n)` on a non-null in-creek pointer whose slag's
`object_size` is at least `n` (with `n > 0`) returns `p` unchanged with an
empty effect trace — no copy, no new allocation and no free — and size
sufficiency (`object_size >= new_size`) is the only check performed, so a
shrinking request (`n` arbitrarily smaller than `object_size`) also just
returns `p`. -/
theorem C6_realloc_in_place (E : ElfState) (p n : Nat) (hp : p ≠ 0) (hn : n ≠ 0)
    (hc : E.contains p = true)
    (hsize : n ≤ E.objSize (Slag.find p E.slabSize)) :
    ElfMalloc.realloc E p n = ([], p) := by
  simp [ElfMalloc.realloc, hp, hn, hc, hsize]

/-- C6, witness for `C6_realloc_in_place` at `E0` with the in-creek pointer
`2^40 + 32` (object size 16) and the shrinking request `n = 8`. -/
theorem C6_witness :
    ((2 ^ 40 + 32 : Nat) ≠ 0 ∧ (8 : Nat) ≠ 0 ∧
      E0.contains (2 ^ 40 + 32) = true ∧
      8 ≤ E0.objSize (Slag.find (2 ^ 40 + 32) E0.slabSize)) ∧
    ElfMalloc.realloc E0 (2 ^ 40 + 32) 8 = ([], 2 ^ 40 + 32) :=
  ⟨⟨by decide, by decide, by decide, by decide⟩,
    C6_realloc_in_place E0 (2 ^ 40 + 32) 8 (by decide) (by decide) (by decide) (by decide)⟩

/-- C8: calling `global::realloc` while the current thread's initializing
flag is set fails the assertion `assert!(!is_initializing(), ...)`,
modelled as an `Except.error` (panic); no dispatch to any allocator
happens — the result carries no realloc trace. -/
theorem C8_global_realloc_asserts (g : GlobalTLS) (E : ElfState) (p n : Nat)
    (h : g.initFlag = true) :
    global.realloc g E p n = .error "realloc cant be called recursively" := by
  simp [global.realloc, h]

/-- C8, witness for `C8_global_realloc_asserts` with the flag set. -/
theorem C8_witness :
    (GlobalTLS.mk true false).initFlag = true ∧
    global.realloc ⟨true, false⟩ E0 42 64 =
      .error "realloc cant be called recursively" :=
  ⟨rfl, C8_global_realloc_asserts ⟨true, false⟩ E0 42 64 rfl⟩

/-- C7: if the current thread's initializing flag is set and no cached
handle pointer is installed, `global::alloc(n)` bypasses the size-class
allocator entirely and returns `large_alloc::alloc(n)` — for every size
`n` — a non-null pointer; after the flag is cleared (handle still not
installed) `global::free` of that pointer dispatches to
`large_alloc::free` and unmaps exactly the mapping the alloc created. -/
theorem C7_init_bypass (g : GlobalTLS) (E : ElfState) (la : large_alloc.LAState)
    (freshBase n : Nat) (hinit : g.initFlag = true) (hptr : g.ptrCached = false)
    (hout : E.contains (freshBase + large_alloc.PAGE_SIZE) = false) :
    (global.alloc g E la freshBase n).2.2.2 = [GStep.largeAllocG n] ∧
    (global.alloc g E la freshBase n).2.2.1 = freshBase + large_alloc.PAGE_SIZE ∧
    (global.alloc g E la freshBase n).2.2.1 ≠ 0 ∧
    (global.free ⟨false, false⟩ E (global.alloc g E la freshBase n).2.1
        (global.alloc g E la freshBase n).2.2.1).2 =
      [GStep.innerLargeFree (freshBase + large_alloc.PAGE_SIZE)] ∧
    (global.free ⟨false, false⟩ E (global.alloc g E la freshBase n).2.1
        (global.alloc g E la freshBase n).2.2.1).1.mapped = la.mapped := by
  have hout4 : E.contains (freshBase + 4096) = false := hout
  refine ⟨?_, ?_, ?_, ?_, ?_⟩ <;>
    simp [global.alloc, global.free, hinit, hptr, hout4,
      large_alloc.alloc, large_alloc.free, Nat.add_sub_cancel, large_alloc.PAGE_SIZE]

/-- C7, witness for `C7_init_bypass` with the flag set, no cached handle,
and a fresh mapping at `2^45` (outside the creek of `E0`). -/
theorem C7_witness :
    ((GlobalTLS.mk true false).initFlag = true ∧
      (GlobalTLS.mk true false).ptrCached = false ∧
      E0.contains (2 ^ 45 + large_alloc.PAGE_SIZE) = false) ∧
    ((global.alloc ⟨true, false⟩ E0 la0 (2 ^ 45) 64).2.2.2 = [GStep.largeAllocG 64] ∧
    (global.alloc ⟨true, false⟩ E0 la0 (2 ^ 45) 64).2.2.1 = 2 ^ 45 + large_alloc.PAGE_SIZE ∧
    (global.alloc ⟨true, false⟩ E0 la0 (2 ^ 45) 64).2.2.1 ≠ 0 ∧
    (global.free ⟨false, false⟩ E0 (global.alloc ⟨true, false⟩ E0 la0 (2 ^ 45) 64).2.1
        (global.alloc ⟨true, false⟩ E0 la0 (2 ^ 45) 64).2.2.1).2 =
      [GStep.innerLargeFree (2 ^ 45 + large_alloc.PAGE_SIZE)] ∧
    (global.free ⟨false, false⟩ E0 (global.alloc ⟨true, false⟩ E0 la0 (2 ^ 45) 64).2.1
        (global.alloc ⟨true, false⟩ E0 la0 (2 ^ 45) 64).2.2.1).1.mapped = la0.mapped) :=
  ⟨⟨rfl, rfl, by decide⟩,
    C7_init_bypass ⟨true, false⟩ E0 la0 (2 ^ 45) 64 rfl rfl (by decide)⟩

/-- Every successful result of `alloc_helper` is non-null, for every
response sequence of the VM layer: the null result of `mmap` is never
returned, only retried. -/
theorem alloc_helper_success_ne_zero (self : MapAlloc) (size : Nat) :
    ∀ rs p, (MapAlloc.alloc_helper self size rs).1 = some p → p ≠ 0 := by
  intro rs
  induction rs with
  | nil => intro p h; simp [MapAlloc.alloc_helper] at h
  | cons r rest ih =>
    intro p h
    match r with
    | none => simp [MapAlloc.alloc_helper] at h
    | some q =>
      by_cases hq : q = 0
      · subst hq
        simp [MapAlloc.alloc_helper] at h
        exact ih p h
      · simp [MapAlloc.alloc_helper, hq] at h
        omega

/-- Every `munmap` call in an `alloc_helper` trace starts at address
`pagesize` and has length `size - pagesize`: the first page of the address
space is never unmapped. -/
theorem alloc_helper_munmap_shape (self : MapAlloc) (size : Nat) :
    ∀ rs a l, VMStep.munmapCall a l ∈ (MapAlloc.alloc_helper self size rs).2 →
      a = self.pagesize ∧ l = size - self.pagesize := by
  intro rs
  induction rs with
  | nil => intro a l h; simp [MapAlloc.alloc_helper] at h
  | cons r rest ih =>
    intro a l h
    match r with
    | none => simp [MapAlloc.alloc_helper] at h
    | some q =>
      by_cases hq : q = 0
      · subst hq
        simp [MapAlloc.alloc_helper] at h
        rcases h with h | h
        · exact ⟨h.2.1, h.2.2⟩
        · exact ih a l h
      · simp [MapAlloc.alloc_helper, hq] at h

/-- With no null `mmap` response in the sequence, `alloc_helper` calls
`mmap` at most once. -/
theorem alloc_helper_one_mmap (self : MapAlloc) (size : Nat) :
    ∀ rs, rs.count (some 0) = 0 →
      (MapAlloc.alloc_helper self size rs).2.countP (fun s => s.isMmap) ≤ 1 := by
  intro rs h
  match rs with
  | [] => simp [MapAlloc.alloc_helper]
  | none :: rest => simp [MapAlloc.alloc_helper, List.countP_cons, VMStep.isMmap]
  | some q :: rest =>
    by_cases hq : q = 0
    · subst hq; simp [List.count_cons] at h
    · simp [MapAlloc.alloc_helper, hq, List.countP_cons, VMStep.isMmap]

/-- With at most one null `mmap` response in the sequence, `alloc_helper`
calls `mmap` at most twice: a single re-try. -/
theorem alloc_helper_single_retry (self : MapAlloc) (size : Nat) :
    ∀ rs, rs.count (some 0) ≤ 1 →
      (MapAlloc.alloc_helper self size rs).2.countP (fun s => s.isMmap) ≤ 2 := by
  intro rs h
  match rs with
  | [] => simp [MapAlloc.alloc_helper]
  | none :: rest => simp [MapAlloc.alloc_helper, List.countP_cons, VMStep.isMmap]
  | some q :: rest =>
    by_cases hq : q = 0
    · subst hq
      have hrest : rest.count (some 0) = 0 := by
        simp [List.count_cons] at h; omega
      have h1 := alloc_helper_one_mmap self size rest hrest
      have key : (MapAlloc.alloc_helper self size (some 0 :: rest)).2 =
          VMStep.mmapCall size (some 0) ::
            ((if 0 < size - self.pagesize then
                [VMStep.munmapCall self.pagesize (size - self.pagesize)] else []) ++
              VMStep.markUnused 0 self.pagesize ::
                (MapAlloc.alloc_helper self size rest).2) := rfl
      have hcnt : (if 0 < size - self.pagesize then
          [VMStep.munmapCall self.pagesize (size - self.pagesize)] else
          ([] : List VMStep)).countP (fun s => s.isMmap) = 0 := by
        split <;> rfl
      have pm : (VMStep.mmapCall size (some 0)).isMmap = true := rfl
      have pk : (VMStep.markUnused 0 self.pagesize).isMmap = false := rfl
      rw [key, List.countP_cons, List.countP_append, List.countP_cons, hcnt, pm, pk]
      simp only [if_true, Bool.false_eq_true, if_false]
      omega
    · simp [MapAlloc.alloc_helper, hq, List.countP_cons, VMStep.isMmap]

/-- C9: when `mmap` returns address 0 (and the map is larger than one
page), `alloc_helper` unmaps all but the first page (`munmap(pagesize,
size - pagesize)` is in the trace), never unmaps the first page itself
(every `munmap` in the trace starts at `pagesize`), performs a single
re-try (at most two `mmap` calls, given that `mmap` cannot return address
0 again while the first page stays mapped), and a successful result of
`alloc_helper` is never the null pointer. -/
theorem C9_null_mmap_retry (self : MapAlloc) (size : Nat) (rest : List (Option Nat))
    (hsz : self.pagesize < size) (hrest : rest.count (some 0) = 0) :
    VMStep.munmapCall self.pagesize (size - self.pagesize) ∈
      (MapAlloc.alloc_helper self size (some 0 :: rest)).2 ∧
    (∀ a l, VMStep.munmapCall a l ∈
      (MapAlloc.alloc_helper self size (some 0 :: rest)).2 → a = self.pagesize) ∧
    (MapAlloc.alloc_helper self size (some 0 :: rest)).2.countP
      (fun s => s.isMmap) ≤ 2 ∧
    (∀ rs p, (MapAlloc.alloc_helper self size rs).1 = some p → p ≠ 0) := by
  refine ⟨?_, ?_, ?_, alloc_helper_success_ne_zero self size⟩
  · have hpos : 0 < size - self.pagesize := by omega
    simp [MapAlloc.alloc_helper, hpos]
  · intro a l h
    exact (alloc_helper_munmap_shape self size _ a l h).1
  · exact alloc_helper_single_retry self size _ (by simp [List.count_cons, hrest])

/-- C9, witness for `C9_null_mmap_retry`: page size 4096, an 8192-byte
request, `mmap` returning 0 first and then a real address. -/
theorem C9_witness :
    ((MapAlloc.mk 4096).pagesize < 8192 ∧ [some 20480].count (some (0 : Nat)) = 0) ∧
    (VMStep.munmapCall (MapAlloc.mk 4096).pagesize (8192 - (MapAlloc.mk 4096).pagesize) ∈
      (MapAlloc.alloc_helper ⟨4096⟩ 8192 (some 0 :: [some 20480])).2 ∧
    (∀ a l, VMStep.munmapCall a l ∈
      (MapAlloc.alloc_helper ⟨4096⟩ 8192 (some 0 :: [some 20480])).2 →
        a = (MapAlloc.mk 4096).pagesize) ∧
    (MapAlloc.alloc_helper ⟨4096⟩ 8192 (some 0 :: [some 20480])).2.countP
      (fun s => s.isMmap) ≤ 2 ∧
    (∀ rs p, (MapAlloc.alloc_helper ⟨4096⟩ 8192 rs).1 = some p → p ≠ 0)) :=
  ⟨⟨by decide, by decide⟩,
    C9_null_mmap_retry ⟨4096⟩ 8192 [some 20480] (by decide) (by decide)⟩

/-- C10, failing input: `next_multiple` does not round up to a multiple of
the page size.  The code computes `size + (size - size % unit)` instead of
`size + (unit - size % unit)`: for `layout.size() = 1` and page size 4096
the reported `Excess` size is 1 (the smallest multiple of 4096 that is
`>= 1` is 4096), and for size 4097 the result is 8193, which is not a
multiple of 4096 at all (the smallest multiple `>= 4097` is 8192). -/
theorem C10_next_multiple_not_rounded :
    MapAlloc.alloc_excess ⟨4096⟩ [some 8192] 1 1 = .ok (8192, 1) ∧
    next_multiple 1 4096 = 1 ∧
    next_multiple 1 4096 % 4096 ≠ 0 ∧
    next_multiple 4097 4096 = 8193 ∧
    next_multiple 4097 4096 % 4096 ≠ 0 :=
  ⟨rfl, rfl, by decide, rfl, by decide⟩

/-- The doubling loop returns its accumulator as soon as it reaches the target. -/
theorem npt_loop_of_le (f n acc : Nat) (h : n ≤ acc) : npt_loop f n acc = acc := by
  cases f <;> simp [npt_loop, h]

/-- With enough fuel, the doubling loop started at `2 ^ i` below `n`
computes `2 ^ ⌈log₂ n⌉`. -/
theorem npt_loop_eq_pow_clog :
    ∀ f i n : Nat, 2 ^ i < n → n ≤ 2 ^ (i + f) →
      npt_loop f n (2 ^ i) = 2 ^ Nat.clog 2 n := by
  intro f
  induction f with
  | zero =>
    intro i n h1 h2
    rw [Nat.add_zero] at h2
    omega
  | succ f ih =>
    intro i n h1 h2
    have hnot : ¬ n ≤ 2 ^ i := by omega
    have h2p : 2 * 2 ^ i = 2 ^ (i + 1) := by ring
    simp only [npt_loop, if_neg hnot, h2p]
    by_cases hle : n ≤ 2 ^ (i + 1)
    · rw [npt_loop_of_le f n _ hle]
      have hclog : Nat.clog 2 n = i + 1 := by
        apply le_antisymm
        · exact (Nat.le_pow_iff_clog_le (by norm_num)).mp hle
        · exact (Nat.pow_lt_iff_lt_clog (by norm_num)).mp h1
      rw [hclog]
    · refine ih (i + 1) n (by omega) ?_
      have harr : i + 1 + f = i + (f + 1) := by omega
      rw [harr]
      exact h2

/-- On `2 ≤ n ≤ 2^64`, the embedded `next_power_of_two` is `2 ^ ⌈log₂ n⌉`. -/
theorem next_power_of_two_eq (n : Nat) (h2 : 2 ≤ n) (h64 : n ≤ 2 ^ 64) :
    next_power_of_two n = 2 ^ Nat.clog 2 n := by
  have h := npt_loop_eq_pow_clog 64 0 n (by simp; omega) (by simpa using h64)
  simpa [next_power_of_two] using h

/-- The trailing-zeros loop on a power of two returns the exponent. -/
theorem tz_loop_pow : ∀ k f : Nat, k < f → tz_loop f (2 ^ k) = k := by
  intro k
  induction k with
  | zero =>
    intro f hf
    match f, hf with
    | f + 1, _ => simp [tz_loop]
  | succ k ih =>
    intro f hf
    match f, hf with
    | f + 1, hf =>
      have h2 : 2 ^ (k + 1) % 2 = 0 := by
        simp [Nat.pow_succ, Nat.mul_mod_left]
      have hdiv : 2 ^ (k + 1) / 2 = 2 ^ k := by
        rw [Nat.pow_succ, Nat.mul_div_cancel _ (by norm_num)]
      simp only [tz_loop, if_neg (by omega : ¬ 2 ^ (k + 1) % 2 = 1), hdiv,
        ih f (by omega)]

/-- The embedded `trailing_zeros` on a power of two `2 ^ k` (with `k < 64`)
returns `k`. -/
theorem trailing_zeros_pow (k : Nat) (hk : k < 64) : trailing_zeros (2 ^ k) = k := by
  have hne : (2 : Nat) ^ k ≠ 0 := by positivity
  simp [trailing_zeros, hne, tz_loop_pow k 64 hk]

/-- The ceiling base-2 logarithm of 193 (= `small_max + 1` for the default
configuration) is 8. -/
theorem clog_two_193 : Nat.clog 2 193 = 8 := by
  apply le_antisymm
  · exact (Nat.le_pow_iff_clog_le (by norm_num)).mp (by norm_num)
  · exact (Nat.pow_lt_iff_lt_clog (by norm_num)).mp (by norm_num)

/-- C5: for the default configuration (`start_from = 8`, `n_classes = 25`,
small tier 16..192 in steps of 16, medium tier 256..2^20 in powers of two)
and every request size `n ≤ max_size`, the size-class lookup selects: the
dedicated word class when `n ≤ 8`; the small-tier class at index
`(round_up(n) - starting_size) / 16` (with `starting_size = 16`) when
`8 < n ≤ 192`; and otherwise the medium-tier power-of-two class at index
`⌈log₂ n⌉ - ⌈log₂ (small_max + 1)⌉ = ⌈log₂ n⌉ - ⌈log₂ 193⌉`. -/
theorem C5_class_selection (n : Nat) (hmax : n ≤ defaultTiers.max_key) :
    (n ≤ 8 → defaultTiers.select n = .word) ∧
    (8 < n → n ≤ 192 →
      defaultTiers.select n = .small ((round_up n - 16) / 16)) ∧
    (192 < n →
      defaultTiers.select n = .medium (Nat.clog 2 n - Nat.clog 2 193)) := by
  have hd : defaultTiers =
      { small_objs := ⟨16, 192, 12⟩, medium_objs := ⟨256, 1048576, 13⟩ } := by
    decide
  refine ⟨?_, ?_, ?_⟩
  · intro h
    simp [TieredSizeClasses.select, h]
  · intro h1 h2
    rw [hd]
    simp [TieredSizeClasses.select, Multiples.get_index, MULTIPLE,
      show ¬ n ≤ 8 by omega, h2]
  · intro h3
    have hk : defaultTiers.max_key = 1048576 := by decide
    rw [hk] at hmax
    have hpow : (2 : Nat) ^ 20 = 1048576 := by norm_num
    have hn20 : n ≤ 2 ^ 20 := by omega
    have hclog20 : Nat.clog 2 n ≤ 20 :=
      (Nat.le_pow_iff_clog_le (by norm_num)).mp hn20
    rw [hd]
    simp only [TieredSizeClasses.select, Multiples.get_index, PowersOfTwo.get_index,
      if_neg (by omega : ¬ n ≤ 8), if_neg (by omega : ¬ n ≤ 192)]
    rw [next_power_of_two_eq n (by omega) (le_trans hn20 (by norm_num)),
      trailing_zeros_pow (Nat.clog 2 n) (by omega),
      show (256 : Nat) = 2 ^ 8 by norm_num,
      trailing_zeros_pow 8 (by norm_num), clog_two_193]

/-- C5, witness for `C5_class_selection`: the medium-tier request 300 is
within `max_size` and selects the class at index `⌈log₂ 300⌉ - ⌈log₂ 193⌉`. -/
theorem C5_witness :
    300 ≤ defaultTiers.max_key ∧
    defaultTiers.select 300 = .medium (Nat.clog 2 300 - Nat.clog 2 193) :=
  ⟨by decide, (C5_class_selection 300 (by decide)).2.2 (by decide)⟩

end AllocatorsRs
